import Mathlib

/-!
Shallow embedding of the stac-fastapi elasticsearch/opensearch core
(query compiler, aggregation compiler, transaction clients) from
`stac_fastapi/core/stac_fastapi/core/core.py` and
`stac_fastapi/sfeos_helpers/stac_fastapi/sfeos_helpers/database/query.py`,
together with theorems settling the specification claims.

Python exceptions are modelled by an explicit error type and `Except`;
Python dicts whose key set matters are modelled as ordered association
lists; numeric request values are modelled as `Rat` (only ordering and
equality of coordinates are ever used by the embedded code).  Backend
calls (the database logic, which lives outside the compiler core) are
modelled at the interface boundary named in the specification.
-/

namespace StacFastApi

/-- Python exceptions raised by the embedded code.  `http` models
`fastapi.HTTPException(status_code, detail)`; `indexError` models the
builtin `IndexError` (used by the database layer to signal a missing
collection index); `unboundLocal` models the `UnboundLocalError` raised
when a never-assigned local variable is read. -/
inductive PyError where
  | http (status : Nat) (detail : String)
  | valueError (msg : String)
  | indexError
  | notFoundError
  | conflictError
  | unboundLocal (name : String)
  deriving Repr, DecidableEq

/-- True exactly for an `HTTPException` with a 4xx status code, the
form every other client-request rejection in the aggregation client
takes. -/
def isClientHttpError : PyError → Bool
  | PyError.http status _ => decide (400 ≤ status ∧ status < 500)
  | _ => false

/-! ## Datetime normalization (`CoreClient._return_date`, core.py 379-429)

A Python `datetime` value is modelled by the two string renderings the
code uses: `iso` for `isoformat()` and `strf` for
`strftime("%Y-%m-%dT%H:%M:%S.%f")`. -/

structure PyDatetime where
  iso : String
  strf : String
  deriving Repr, DecidableEq

/-- The `interval` argument of `_return_date`: a string, a single
datetime, or a tuple of two optional datetimes (`None` is the outer
`Option`). -/
inductive DateInterval where
  | str (s : String)
  | dt (d : PyDatetime)
  | tuple (start stop : Option PyDatetime)
  deriving Repr, DecidableEq

/-- `strftime("%Y-%m-%dT%H:%M:%S.%f")[:-3] + "Z"` -/
def formatZ (d : PyDatetime) : String := d.strf.dropRight 3 ++ "Z"

/-- `CoreClient._return_date` (an identical copy is
`EsAsyncAggregationClient._return_date`, core.py 1340-1390).  The
result dict is modelled as an ordered association list; the source
initializes it to `{"gte": None, "lte": None}` and every branch only
assigns to those two existing keys, which the branches below reproduce
verbatim. -/
def _return_date (interval : Option DateInterval) : List (String × Option String) :=
  match interval with
  | none => [("gte", none), ("lte", none)]
  | some (DateInterval.str s) =>
      if s.contains '/' then
        let parts := s.splitOn "/"
        [("gte", if parts[0]! != ".." then some parts[0]! else none),
         ("lte", if parts.length > 1 && parts[1]! != ".." then some parts[1]! else none)]
      else
        let converted_time := if s != ".." then some s else none
        [("gte", converted_time), ("lte", converted_time)]
  | some (DateInterval.dt d) =>
      [("gte", some d.iso), ("lte", some d.iso)]
  | some (DateInterval.tuple start stop) =>
      [("gte", start.map formatZ), ("lte", stop.map formatZ)]

/-! ## Precision validation (`EsAsyncAggregationClient.extract_precision`,
core.py 1296-1306) and the bounds it is called with (core.py 1547-1602). -/

def extract_precision (precision : Option Int) (min_value max_value : Int) :
    Except PyError Int :=
  match precision with
  | some p =>
      if p < min_value ∨ p > max_value then
        Except.error (PyError.http 400
          s!"Invalid precision. Must be a number between {min_value} and {max_value} inclusive")
      else Except.ok p
  | none => Except.ok min_value

def max_geohash_precision : Int := 12
def max_geohex_precision : Int := 15
def max_geotile_precision : Int := 29

/-- The geohash-grid precision extraction exactly as wired in
`aggregate` (core.py 1551-1554): bounds 1 and `max_geohash_precision`. -/
def geohash_precision_of (p : Option Int) : Except PyError Int :=
  extract_precision p 1 max_geohash_precision

/-! ## Sort compilation (`CoreClient.get_search`, core.py 510-519, and
`populate_sort_shared`, query.py 86-104). -/

inductive SortDirection where
  | asc
  | desc
  deriving Repr, DecidableEq

structure SortSpec where
  field : String
  direction : SortDirection
  deriving Repr, DecidableEq

/-- The GET-search sortby loop: each key is compiled to
`{"field": sort[1:], "direction": "desc" if sort[0] == "-" else "asc"}`.
Indexing `sort[0]` on an empty key raises `IndexError`. -/
def get_search_sort_param : List String → Except PyError (List SortSpec)
  | [] => Except.ok []
  | s :: rest =>
      if s.isEmpty then Except.error PyError.indexError
      else
        match get_search_sort_param rest with
        | Except.error e => Except.error e
        | Except.ok tail =>
            Except.ok ({ field := s.drop 1,
                         direction := if s.front = '-' then SortDirection.desc
                                      else SortDirection.asc } :: tail)

/-- Assignment into a Python dict: an existing key keeps its position
and gets the new value, a new key is appended. -/
def pyDictInsert (d : List (String × SortDirection)) (k : String) (v : SortDirection) :
    List (String × SortDirection) :=
  if k ∈ d.map Prod.fst then d.map (fun p => if p.1 = k then (k, v) else p)
  else d ++ [(k, v)]

/-- `populate_sort_shared` (query.py 86-104):
`{s.field: {"order": s.direction} for s in sortby}` when `sortby` is
truthy, else `None`. -/
def populate_sort_shared (sortby : List SortSpec) : Option (List (String × SortDirection)) :=
  if sortby.isEmpty then none
  else some (sortby.foldl (fun dict s => pyDictInsert dict s.field s.direction) [])

/-! ## The predicate accumulator and the filter methods applied to it

`database.make_search()` and the `database.apply_*_filter` methods live
in the backend database logic (outside the compiler core); per the
external-interface contract each application composes one more filter
onto the accumulator, modelled as appending a tagged filter record. -/

structure GeoJsonGeom where
  type : String
  coordinates : String
  deriving Repr, DecidableEq

inductive SearchFilter where
  | ids (item_ids : List String)
  | collections (collection_ids : List String)
  | datetime (datetime_search : List (String × Option String))
  | bbox (b : List Rat)
  | intersects (g : Option GeoJsonGeom)
  | stacql (op field value : String)
  | cql2 (f : String)
  deriving Repr, DecidableEq

def make_search : List SearchFilter := []

def apply_ids_filter (search : List SearchFilter) (item_ids : List String) :
    List SearchFilter := search ++ [SearchFilter.ids item_ids]

def apply_collections_filter (search : List SearchFilter) (collection_ids : List String) :
    List SearchFilter := search ++ [SearchFilter.collections collection_ids]

def apply_datetime_filter (search : List SearchFilter)
    (datetime_search : List (String × Option String)) : List SearchFilter :=
  search ++ [SearchFilter.datetime datetime_search]

def apply_bbox_filter (search : List SearchFilter) (bbox : List Rat) :
    List SearchFilter := search ++ [SearchFilter.bbox bbox]

def apply_intersects_filter (search : List SearchFilter) (g : Option GeoJsonGeom) :
    List SearchFilter := search ++ [SearchFilter.intersects g]

def apply_stacql_filter (search : List SearchFilter) (op field value : String) :
    List SearchFilter := search ++ [SearchFilter.stacql op field value]

def apply_cql2_filter (search : List SearchFilter) (f : String) :
    List SearchFilter := search ++ [SearchFilter.cql2 f]

/-- The bbox branch shared by `post_search` (core.py 586-591) and
`aggregate` (core.py 1467-1471): a 6-value bbox is replaced by
`[bbox[0], bbox[1], bbox[3], bbox[4]]` before the filter is applied. -/
def normalize_bbox (bbox : List Rat) : List Rat :=
  if bbox.length = 6 then [bbox[0]!, bbox[1]!, bbox[3]!, bbox[4]!] else bbox

def apply_bbox_step (search : List SearchFilter) (bbox : List Rat) : List SearchFilter :=
  apply_bbox_filter search (normalize_bbox bbox)

/-- Python truthiness of an optional list: `None` and `[]` are falsy. -/
def truthyList (o : Option (List α)) : Bool :=
  match o with
  | some (_ :: _) => true
  | _ => false

/-! ## `CoreClient.post_search` filter composition (core.py 566-616)

Only the pure query-compilation phase is embedded: the sequence of
filter applications building the accumulator.  Execution, serialization
and link building are backend or framework concerns. -/

structure SearchRequestD where
  ids : Option (List String) := none
  collections : Option (List String) := none
  datetime : Option DateInterval := none
  bbox : Option (List Rat) := none
  intersects : Option GeoJsonGeom := none
  query : List (String × List (String × String)) := []
  filter : Option String := none
  deriving Repr, DecidableEq

def post_search_filters (r : SearchRequestD) : List SearchFilter :=
  let search := make_search
  let search := if truthyList r.ids then apply_ids_filter search (r.ids.getD []) else search
  let search :=
    if truthyList r.collections then apply_collections_filter search (r.collections.getD [])
    else search
  let search :=
    match r.datetime with
    | some d => apply_datetime_filter search (_return_date (some d))
    | none => search
  let search := if truthyList r.bbox then apply_bbox_step search (r.bbox.getD []) else search
  let search :=
    match r.intersects with
    | some g => apply_intersects_filter search (some g)
    | none => search
  let search := r.query.foldl
    (fun s fe =>
      fe.2.foldl (fun s ov => apply_stacql_filter s ov.1 ("properties__" ++ fe.1) ov.2) s)
    search
  let search :=
    match r.filter with
    | some f => apply_cql2_filter search f
    | none => search
  search

/-! ## GET bbox parsing (`EsAsyncAggregationClient.extract_bbox`,
core.py 1309-1337)

Each comma-separated component of the query string either fails
`float(x)` (`invalid`), parses to a NaN or infinity (`nonfinite`,
rejected by `is_finite`), or parses to a finite number. -/

inductive NumTok where
  | invalid
  | nonfinite
  | finite (q : Rat)
  deriving Repr, DecidableEq

def finiteValue : NumTok → Option Rat
  | NumTok.finite q => some q
  | _ => none

/-- The GET branch of `extract_bbox`:
`[float(x) for x in bbox_value.split(",") if self.is_finite(float(x))]`
followed by the arity and latitude checks.  A `float` conversion error
anywhere in the comprehension is caught and reported as a 400. -/
def extract_bbox_get (tokens : List NumTok) : Except PyError (List Rat) :=
  if tokens.any (fun t => t == NumTok.invalid) then
    Except.error (PyError.http 400 "Invalid bbox")
  else
    let bbox_array := tokens.filterMap finiteValue
    if ¬(bbox_array.length = 4 ∨ bbox_array.length = 6) then
      Except.error (PyError.http 400 "Invalid bbox, must have 4 or 6 points")
    else if (bbox_array.length = 4 ∧ bbox_array[1]! > bbox_array[3]!) ∨
            (bbox_array.length = 6 ∧ bbox_array[1]! > bbox_array[4]!) then
      Except.error (PyError.http 400 "Invalid bbox, SW latitude must be less than NE latitude")
    else Except.ok bbox_array

/-! ## Aggregation allow-list validation (core.py 1492-1545) -/

structure AggDecl where
  name : String
  data_type : String
  deriving Repr, DecidableEq

/-- A stored collection document, restricted to the fields the
aggregation client reads: its id and the value of its `aggregations`
key (`[]` models an absent or empty declaration, which is falsy). -/
structure CollectionD where
  id : String
  aggregations : List AggDecl
  deriving Repr, DecidableEq

def DEFAULT_AGGREGATION_NAMES : List String :=
  ["total_count", "datetime_max", "datetime_min", "datetime_frequency"]

def ALL_AGGREGATION_NAMES : List String :=
  DEFAULT_AGGREGATION_NAMES ++
    ["collection_frequency", "grid_code_frequency", "grid_geohash_frequency",
     "grid_geohex_frequency", "grid_geotile_frequency",
     "centroid_geohash_grid_frequency", "centroid_geohex_grid_frequency",
     "centroid_geotile_grid_frequency", "geometry_geohash_grid_frequency",
     "geometry_geotile_grid_frequency", "platform_frequency",
     "sun_elevation_frequency", "sun_azimuth_frequency", "off_nadir_frequency",
     "cloud_cover_frequency"]

/-- Python `str(collection_id)` as used in the 415 detail f-string. -/
def pyStrOpt : Option String → String
  | some s => s
  | none => "None"

/-- The for-loop over requested names: raise a 415 at the first name
missing from the permitted list. -/
def validate_agg_loop (allowed : List String) (detail : String → String) :
    List String → Except PyError Unit
  | [] => Except.ok ()
  | n :: rest =>
      if n ∈ allowed then validate_agg_loop allowed detail rest
      else Except.error (PyError.http 415 (detail n))

/-- core.py 1535-1545: when the scoped collection declares a non-empty
aggregation list, each requested name is checked against that list,
otherwise against `ALL_AGGREGATION_NAMES`. -/
def validate_aggregations (collection_id : Option String) (collection : Option CollectionD)
    (requested : List String) : Except PyError Unit :=
  match collection with
  | some col =>
      if ¬ col.aggregations.isEmpty then
        validate_agg_loop (col.aggregations.map AggDecl.name)
          (fun n => s!"Aggregation {n} not supported by collection {pyStrOpt collection_id}")
          requested
      else
        validate_agg_loop ALL_AGGREGATION_NAMES
          (fun n => s!"Aggregation {n} not supported at catalog level") requested
  | none =>
      validate_agg_loop ALL_AGGREGATION_NAMES
        (fun n => s!"Aggregation {n} not supported at catalog level") requested

/-- The permitted set as the specification words it: the collection
declared list when one is declared, the catalog-level allow-list
otherwise. -/
def permitted_aggregation_names (collection : Option CollectionD) : List String :=
  match collection with
  | some col =>
      if ¬ col.aggregations.isEmpty then col.aggregations.map AggDecl.name
      else ALL_AGGREGATION_NAMES
  | none => ALL_AGGREGATION_NAMES

/-! ## Request-value extraction helpers (core.py 1215-1291) -/

def split_commas (s : String) : List String :=
  if s.contains ',' then s.splitOn "," else [s]

/-- `extract_aggregations` on the GET request shape (an optional
comma-separated string; falsy input yields `[]`). -/
def extract_aggregations (aggregations_value : Option String) : List String :=
  match aggregations_value with
  | some s => if s.isEmpty then [] else split_commas s
  | none => []

/-- `extract_collection_ids` on the GET request shape (the request
model has already split the query string into a list). -/
def extract_collection_ids (collection_ids : Option (List String)) : List String :=
  match collection_ids with
  | some l => if l.isEmpty then [] else l
  | none => []

/-- `extract_ids`, same list branch. -/
def extract_ids (ids_value : Option (List String)) : List String :=
  match ids_value with
  | some l => if l.isEmpty then [] else l
  | none => []

/-- The `intersects` request value: either a string that fails JSON
parsing or a parsed GeoJSON object. -/
inductive IntersectsVal where
  | invalidJson
  | geo (g : GeoJsonGeom)
  deriving Repr, DecidableEq

/-- `extract_intersects` (core.py 1275-1291). -/
def extract_intersects (intersects_value : Option IntersectsVal) :
    Except PyError (Option GeoJsonGeom) :=
  match intersects_value with
  | none => Except.ok none
  | some IntersectsVal.invalidJson =>
      Except.error (PyError.http 400 "Invalid GeoJSON geometry")
  | some (IntersectsVal.geo g) =>
      if g.type = "FeatureCollection" ∨ g.type = "Feature" then
        Except.error (PyError.http 400
          "Expected GeoJSON geometry, not Feature or FeatureCollection")
      else Except.ok (some g)

/-! ## The aggregation pipeline (`EsAsyncAggregationClient.aggregate`,
core.py 1411-1701)

The pipeline is split at the backend call: `aggregatePrepare` embeds
everything up to and including precision validation (no backend
aggregation has executed yet), `aggregateFinish` embeds the try/except
around `database.aggregate` and the result shaping.  `aggregate`
composes them, invoking the backend only on a successfully prepared
request. -/

/-- Python truthiness of the optional bbox value. -/
def bboxTruthy (o : Option (List Rat)) : Bool :=
  match o with
  | some (_ :: _) => true
  | _ => false

/-- Python truthiness of the optional intersects value. -/
def intersectsTruthy (o : Option IntersectsVal) : Bool := o.isSome

structure AggArgs where
  datetime : Option DateInterval := none
  collections : Option (List String) := none
  aggregations : Option String := none
  filter : Option String := none
  ids : Option (List String) := none
  bbox : Option (List Rat) := none
  intersects : Option IntersectsVal := none
  grid_geohex_frequency_precision : Option Int := none
  grid_geohash_frequency_precision : Option Int := none
  grid_geotile_frequency_precision : Option Int := none
  centroid_geohash_grid_frequency_precision : Option Int := none
  centroid_geohex_grid_frequency_precision : Option Int := none
  centroid_geotile_grid_frequency_precision : Option Int := none
  geometry_geohash_grid_frequency_precision : Option Int := none
  geometry_geotile_grid_frequency_precision : Option Int := none
  collection_id : Option String := none

/-- The collaborating backend pieces `aggregate` consults before
executing: the base URL of the request and `find_collection` (which
raises `NotFoundError` for an unknown id). -/
structure AggEnv where
  base_url : String
  findCollection : String → Option CollectionD

/-- `urljoin` as used for link building (the third argument the source
passes is consumed as the `allow_fragments` flag, so only two parts are
ever joined). -/
def urljoin2 (base url : String) : String := base ++ url

/-- Collection scoping (core.py 1440-1459): returns the accumulator
after the collections filter, the resolved collection (only the
`collection_id` branch assigns one) and the collection endpoint. -/
def scopeCollections (env : AggEnv) (a : AggArgs) :
    Except PyError (List SearchFilter × Option CollectionD × Option String) :=
  match a.collection_id with
  | some cid =>
      match env.findCollection cid with
      | some col =>
          Except.ok (apply_collections_filter make_search [cid], some col,
            some (urljoin2 env.base_url "collections"))
      | none => Except.error PyError.notFoundError
  | none =>
      if truthyList a.collections then
        Except.ok (apply_collections_filter make_search (extract_collection_ids a.collections),
          none, none)
      else Except.ok (make_search, none, none)

def applyDatetime (search : List SearchFilter) (dt : Option DateInterval) :
    List SearchFilter :=
  match dt with
  | some d => apply_datetime_filter search (_return_date (some d))
  | none => search

/-- core.py 1467-1475: `if bbox: ... elif intersects: ...`. -/
def applySpatial (search : List SearchFilter) (bbox : Option (List Rat))
    (intersects : Option IntersectsVal) : Except PyError (List SearchFilter) :=
  if bboxTruthy bbox then
    Except.ok (apply_bbox_step search (bbox.getD []))
  else if intersectsTruthy intersects then
    match extract_intersects intersects with
    | Except.error e => Except.error e
    | Except.ok g => Except.ok (apply_intersects_filter search g)
  else Except.ok search

def applyIdsStep (search : List SearchFilter) (ids : Option (List String)) :
    List SearchFilter :=
  if truthyList ids then apply_ids_filter search (extract_ids ids) else search

def applyFilterStep (search : List SearchFilter) (f : Option String) :
    List SearchFilter :=
  match f with
  | some s => apply_cql2_filter search s
  | none => search

/-- The eight `extract_precision` calls of core.py 1551-1602, in source
order, with the bounds the source passes. -/
def extractAllPrecisions (a : AggArgs) : Except PyError (List Int) := do
  let geohash_precision ← extract_precision a.grid_geohash_frequency_precision 1
    max_geohash_precision
  let geohex_precision ← extract_precision a.grid_geohex_frequency_precision 0
    max_geohex_precision
  let geotile_precision ← extract_precision a.grid_geotile_frequency_precision 0
    max_geotile_precision
  let centroid_geohash_grid_precision ← extract_precision
    a.centroid_geohash_grid_frequency_precision 1 max_geohash_precision
  let centroid_geohex_grid_precision ← extract_precision
    a.centroid_geohex_grid_frequency_precision 0 max_geohex_precision
  let centroid_geotile_grid_precision ← extract_precision
    a.centroid_geotile_grid_frequency_precision 0 max_geotile_precision
  let geometry_geohash_grid_precision ← extract_precision
    a.geometry_geohash_grid_frequency_precision 1 max_geohash_precision
  let geometry_geotile_grid_precision ← extract_precision
    a.geometry_geotile_grid_frequency_precision 0 max_geotile_precision
  Except.ok [geohash_precision, geohex_precision, geotile_precision,
    centroid_geohash_grid_precision, centroid_geohex_grid_precision,
    centroid_geotile_grid_precision, geometry_geohash_grid_precision,
    geometry_geotile_grid_precision]

structure Prepared where
  search : List SearchFilter
  aggregations_requested : List String
  precisions : List Int
  collection_endpoint : Option String
  collection_id : Option String
  deriving Repr, DecidableEq

def aggregatePrepare (env : AggEnv) (a : AggArgs) : Except PyError Prepared :=
  if bboxTruthy a.bbox && intersectsTruthy a.intersects then
    Except.error (PyError.valueError "Expected bbox OR intersects, not both")
  else
    match scopeCollections env a with
    | Except.error e => Except.error e
    | Except.ok (search1, collection, collection_endpoint) =>
        let search2 := applyDatetime search1 a.datetime
        match applySpatial search2 a.bbox a.intersects with
        | Except.error e => Except.error e
        | Except.ok search3 =>
            let search4 := applyIdsStep search3 a.ids
            let search5 := applyFilterStep search4 a.filter
            let aggregations_requested := extract_aggregations a.aggregations
            match validate_aggregations a.collection_id collection aggregations_requested with
            | Except.error e => Except.error e
            | Except.ok _ =>
                match extractAllPrecisions a with
                | Except.error e => Except.error e
                | Except.ok ps =>
                    Except.ok { search := search5,
                                aggregations_requested := aggregations_requested,
                                precisions := ps,
                                collection_endpoint := collection_endpoint,
                                collection_id := a.collection_id }

/-! ## Backend response shaping (core.py 1393-1408 and 1604-1701) -/

/-- One raw backend bucket, restricted to the keys the shaper reads. -/
structure EsBucket where
  key_as_string : Option String := none
  key : Option String := none
  doc_count : Option Int := none
  bucket_to : Option Rat := none
  bucket_from : Option Rat := none
  deriving Repr, DecidableEq

structure EsAgg where
  value : Option Int := none
  value_as_string : Option String := none
  sum_other_doc_count : Option Int := none
  buckets : List EsBucket := []
  deriving Repr, DecidableEq

/-- The raw backend aggregation response, modelled at the interface
boundary: its truthiness and the value of its `aggregations` key. -/
structure DbResponse where
  truthy : Bool := true
  aggregations : List (String × EsAgg) := []
  deriving Repr, DecidableEq

inductive PyVal where
  | none
  | int (i : Int)
  | str (s : String)
  | rat (q : Rat)
  deriving Repr, DecidableEq

def optIntVal : Option Int → PyVal
  | some i => PyVal.int i
  | none => PyVal.none

def optStrVal : Option String → PyVal
  | some s => PyVal.str s
  | none => PyVal.none

def optRatVal : Option Rat → PyVal
  | some q => PyVal.rat q
  | none => PyVal.none

/-- Python `a or b` on the two optional key renderings (an empty string
is falsy). -/
def pyOrStr (a b : Option String) : Option String :=
  match a with
  | some s => if s.isEmpty then b else some s
  | none => b

structure BucketOut where
  key : PyVal
  data_type : String
  frequency : PyVal
  bucket_to : PyVal
  bucket_from : PyVal
  deriving Repr, DecidableEq

structure AggOut where
  name : String
  data_type : String
  value : PyVal := PyVal.none
  overflow : Option Int := none
  buckets : Option (List BucketOut) := none
  deriving Repr, DecidableEq

/-- `EsAsyncAggregationClient.agg` (core.py 1393-1408). -/
def agg_shape (es_aggs : List (String × EsAgg)) (name data_type : String) : AggOut :=
  let entry := (es_aggs.lookup name).getD {}
  { name := name
    data_type := "frequency_distribution"
    overflow := some (entry.sum_other_doc_count.getD 0)
    buckets := some (entry.buckets.map (fun b =>
      { key := optStrVal (pyOrStr b.key_as_string b.key)
        data_type := data_type
        frequency := optIntVal b.doc_count
        bucket_to := optRatVal b.bucket_to
        bucket_from := optRatVal b.bucket_from })) }

def other_aggregations : List (String × String) :=
  [("collection_frequency", "string"), ("grid_code_frequency", "string"),
   ("grid_geohash_frequency", "string"), ("grid_geohex_frequency", "string"),
   ("grid_geotile_frequency", "string"), ("centroid_geohash_grid_frequency", "string"),
   ("centroid_geohex_grid_frequency", "string"), ("centroid_geotile_grid_frequency", "string"),
   ("geometry_geohash_grid_frequency", "string"), ("geometry_geotile_grid_frequency", "string"),
   ("platform_frequency", "string"), ("sun_elevation_frequency", "string"),
   ("sun_azimuth_frequency", "string"), ("off_nadir_frequency", "string"),
   ("datetime_frequency", "datetime"), ("cloud_cover_frequency", "numeric")]

/-- The shaping block guarded by `if db_response:` (core.py 1628-1676). -/
def shape_aggregations (result_aggs : List (String × EsAgg)) (requested : List String) :
    List AggOut :=
  (if "total_count" ∈ requested then
    [{ name := "total_count", data_type := "integer",
       value := optIntVal ((result_aggs.lookup "total_count").getD {}).value }]
   else []) ++
  (if "datetime_max" ∈ requested then
    [{ name := "datetime_max", data_type := "datetime",
       value := optStrVal ((result_aggs.lookup "datetime_max").getD {}).value_as_string }]
   else []) ++
  (if "datetime_min" ∈ requested then
    [{ name := "datetime_min", data_type := "datetime",
       value := optStrVal ((result_aggs.lookup "datetime_min").getD {}).value_as_string }]
   else []) ++
  ((other_aggregations.filter (fun p => p.1 ∈ requested)).map
    (fun p => agg_shape result_aggs p.1 p.2))

structure AggCollectionOut where
  type : String
  aggregations : List AggOut
  links : List (String × String × String)
  deriving Repr, DecidableEq

def agg_links (base_url : String) : List (String × String × String) :=
  [("self", "application/json", urljoin2 base_url "aggregate"),
   ("root", "application/json", base_url)]

/-- core.py 1604-1701.  The except clause swallows an `IndexError` from
the backend without re-raising, but `db_response` is assigned only
inside the try block, so the following `if db_response:` read raises
`UnboundLocalError` on that path.  Likewise `results["links"].append`
runs before `results` is assigned whenever `collection_endpoint` is
truthy. -/
def aggregateFinish (base_url : String) (prep : Prepared)
    (backendResult : Except PyError DbResponse) : Except PyError AggCollectionOut :=
  match backendResult with
  | Except.error e =>
      if e = PyError.indexError then Except.error (PyError.unboundLocal "db_response")
      else Except.error e
  | Except.ok db_response =>
      let aggregations :=
        if db_response.truthy then
          shape_aggregations db_response.aggregations prep.aggregations_requested
        else []
      if prep.collection_endpoint.isSome then Except.error (PyError.unboundLocal "results")
      else
        Except.ok { type := "AggregationCollection",
                    aggregations := aggregations,
                    links := agg_links base_url }

def aggregate (env : AggEnv) (a : AggArgs)
    (backend : Prepared → Except PyError DbResponse) : Except PyError AggCollectionOut :=
  match aggregatePrepare env a with
  | Except.error e => Except.error e
  | Except.ok prep => aggregateFinish env.base_url prep (backend prep)

/-! ## Transactions (`TransactionsClient.update_item`, core.py 720-748)

The stored catalog state is a list of collection ids plus a list of
item records.  The database mutation primitives named by the external
interface (`check_collection_exists`, `delete_item`, `create_item`) are
modelled on that state; the injected `backend_create_fails` flag selects
the execution in which the create call fails. -/

structure ItemRecord where
  collection : String
  item_id : String
  body : String
  deriving Repr, DecidableEq

structure Store where
  collections : List String
  items : List ItemRecord
  deriving Repr, DecidableEq

def check_collection_exists (st : Store) (collection_id : String) : Except PyError Unit :=
  if collection_id ∈ st.collections then Except.ok ()
  else Except.error PyError.notFoundError

def db_delete_item (st : Store) (collection_id item_id : String) : Except PyError Store :=
  if st.items.any (fun r => decide (r.collection = collection_id ∧ r.item_id = item_id)) then
    Except.ok { st with
      items := st.items.filter
        (fun r => !decide (r.collection = collection_id ∧ r.item_id = item_id)) }
  else Except.error PyError.notFoundError

def db_create_item (st : Store) (it : ItemRecord) (backend_create_fails : Bool) :
    Except PyError Store :=
  if backend_create_fails then Except.error (PyError.http 500 "backend create failure")
  else if st.items.any (fun r => decide (r.collection = it.collection ∧ r.item_id = it.item_id)) then
    Except.error PyError.conflictError
  else Except.ok { st with items := st.items ++ [it] }

/-- `update_item` run on the store: check the collection, delete the
stored item, then create the replacement - two separate backend calls.
The pair returned is the store state when control leaves the method
together with the outcome. -/
def update_item_run (st : Store) (collection_id item_id new_body : String)
    (backend_create_fails : Bool) : Store × Except PyError ItemRecord :=
  match check_collection_exists st collection_id with
  | Except.error e => (st, Except.error e)
  | Except.ok _ =>
      match db_delete_item st collection_id item_id with
      | Except.error e => (st, Except.error e)
      | Except.ok st1 =>
          match db_create_item st1
              { collection := collection_id, item_id := item_id, body := new_body }
              backend_create_fails with
          | Except.error e => (st1, Except.error e)
          | Except.ok st2 =>
              (st2, Except.ok { collection := collection_id, item_id := item_id,
                                body := new_body })

/-! ## Bulk insertion (`BulkTransactionsClient.bulk_item_insert`,
core.py 884-916) -/

structure BulkItem where
  collection : String
  item_id : String
  body : String
  deriving Repr, DecidableEq

/-- `database.sync_prep_create_item`: backend preparation, identity on
the fields the insert logic reads. -/
def sync_prep_create_item : BulkItem → BulkItem := id

/-- `bulk_item_insert`: the target collection id is read from
`processed_items[0]["collection"]` (raising `IndexError` on an empty
batch) and the whole batch is handed to `bulk_sync` under that single
collection id.  The result carries the success message, the collection
id passed to `bulk_sync` and the inserted batch. -/
def bulk_item_insert (items : List BulkItem) :
    Except PyError (String × String × List BulkItem) :=
  let processed_items := items.map sync_prep_create_item
  match processed_items with
  | [] => Except.error PyError.indexError
  | first :: rest =>
      Except.ok (s!"Successfully added {(first :: rest).length} Items.",
        first.collection, first :: rest)

/-! ## Concrete fixtures used by the closed theorems -/

def envC : AggEnv :=
  { base_url := "http://localhost/", findCollection := fun _ => none }

def argsBoth : AggArgs :=
  { bbox := some [0, 0, 10, 10],
    intersects := some (IntersectsVal.geo { type := "Point", coordinates := "[0,0]" }) }

def backendC : Prepared → Except PyError DbResponse := fun _ => Except.ok {}

def prep0 : Prepared :=
  { search := [], aggregations_requested := [], precisions := [1, 0, 0, 1, 0, 0, 1, 0],
    collection_endpoint := none, collection_id := none }

def st0 : Store :=
  { collections := ["c1"],
    items := [{ collection := "c1", item_id := "i1", body := "old" }] }

def colC : CollectionD :=
  { id := "c1", aggregations := [{ name := "total_count", data_type := "integer" }] }

/-! ## Theorems -/

/-- Claim C6: for every input interval (absent, a single datetime, a
one- or two-endpoint tuple, or a string with or without a slash),
`_return_date` returns a dictionary whose key sequence is exactly
`gte, lte`; the values may be null but neither key is ever absent. -/
theorem C6_return_date_keys (interval : Option DateInterval) :
    (_return_date interval).map Prod.fst = ["gte", "lte"] := by
  cases interval with
  | none => rfl
  | some v =>
      cases v with
      | str s =>
          simp only [_return_date]
          split <;> rfl
      | dt d => rfl
      | tuple start stop => rfl

theorem C6_return_date_keys_witness :
    (_return_date (some (DateInterval.str "2020-01-01/.."))).map Prod.fst = ["gte", "lte"] :=
  C6_return_date_keys (some (DateInterval.str "2020-01-01/.."))

/-- Claim C4: for geohash-grid precision extraction (bounds 1 and 12 as
wired in `aggregate`), a supplied precision of 0 is rejected with a 400,
a supplied precision of 20 is rejected with a 400, a supplied precision
within 1..12 is used as given, and an omitted precision defaults to the
minimum bound 1. -/
theorem C4_geohash_precision_bounds :
    geohash_precision_of (some 0) = Except.error (PyError.http 400
      "Invalid precision. Must be a number between 1 and 12 inclusive") ∧
    geohash_precision_of (some 20) = Except.error (PyError.http 400
      "Invalid precision. Must be a number between 1 and 12 inclusive") ∧
    (∀ p : Int, 1 ≤ p → p ≤ 12 → geohash_precision_of (some p) = Except.ok p) ∧
    geohash_precision_of none = Except.ok 1 := by
  refine ⟨rfl, rfl, ?_, rfl⟩
  intro p h1 h2
  simp only [geohash_precision_of, extract_precision, max_geohash_precision]
  rw [if_neg (by omega)]

theorem C4_geohash_precision_bounds_witness : geohash_precision_of (some 7) = Except.ok 7 :=
  C4_geohash_precision_bounds.2.2.1 7 (by decide) (by decide)

/-- Claim C2 (divergence witness): when the backend aggregation call
fails with the `IndexError` that signals a missing collection index,
the except clause swallows it but the subsequent read of the
never-assigned `db_response` raises `UnboundLocalError`, so the request
does not complete with an empty aggregation result; every other backend
failure propagates unchanged. -/
theorem C2_index_error_crashes :
    aggregateFinish "http://localhost/" prep0 (Except.error PyError.indexError) =
      Except.error (PyError.unboundLocal "db_response") ∧
    aggregateFinish "http://localhost/" prep0 (Except.error (PyError.http 500 "backend failure")) =
      Except.error (PyError.http 500 "backend failure") :=
  ⟨rfl, rfl⟩

/-- Non-finite components are removed before the arity check. -/
theorem extract_bbox_drops_nonfinite (tokens : List NumTok) :
    extract_bbox_get tokens =
      extract_bbox_get (tokens.filter (fun t => !(t == NumTok.nonfinite))) := by
  have hany : (tokens.filter (fun t => !(t == NumTok.nonfinite))).any
      (fun t => t == NumTok.invalid) = tokens.any (fun t => t == NumTok.invalid) := by
    induction tokens with
    | nil => rfl
    | cons h t ih => cases h <;> simp_all [List.filter_cons, List.any_cons]
  have hfm : (tokens.filter (fun t => !(t == NumTok.nonfinite))).filterMap finiteValue
      = tokens.filterMap finiteValue := by
    clear hany
    induction tokens with
    | nil => rfl
    | cons h t ih => cases h <;> simp_all [List.filter_cons, List.filterMap_cons, finiteValue]
  simp only [extract_bbox_get, hany, hfm]

/-- Claim C10: in GET aggregation bbox parsing, components parsing to
NaN or infinity are silently dropped before the 4-or-6 arity check; a
4-component string containing one NaN is rejected with the wrong-arity
message, and a 5-component string containing one NaN passes the arity
check as a 4-value bbox. -/
theorem C10_nonfinite_dropped_before_arity :
    (∀ tokens : List NumTok,
      extract_bbox_get tokens =
        extract_bbox_get (tokens.filter (fun t => !(t == NumTok.nonfinite)))) ∧
    extract_bbox_get [NumTok.finite 0, NumTok.nonfinite, NumTok.finite 10, NumTok.finite 10] =
      Except.error (PyError.http 400 "Invalid bbox, must have 4 or 6 points") ∧
    extract_bbox_get [NumTok.finite 0, NumTok.finite 0, NumTok.nonfinite, NumTok.finite 10,
      NumTok.finite 10] = Except.ok [0, 0, 10, 10] := by
  refine ⟨extract_bbox_drops_nonfinite, ?_, ?_⟩ <;> rfl

/-- Claim C9: `bulk_item_insert` fails with `IndexError` on an empty
batch (the success message is never returned there), and on a non-empty
batch every item is handed to `bulk_sync` under the single collection
id read from the first processed item. -/
theorem C9_bulk_insert_first_collection :
    bulk_item_insert [] = Except.error PyError.indexError ∧
    (∀ (it : BulkItem) (rest : List BulkItem),
      bulk_item_insert (it :: rest) =
        Except.ok (s!"Successfully added {(it :: rest).length} Items.",
          it.collection, it :: rest)) := by
  constructor
  · rfl
  · intro it rest
    simp [bulk_item_insert, sync_prep_create_item, List.map_id]

/-- When every requested name is in the permitted list the validation
loop succeeds. -/
theorem validate_agg_loop_all_ok (allowed : List String) (detail : String → String)
    (req : List String) (h : ∀ n ∈ req, n ∈ allowed) :
    validate_agg_loop allowed detail req = Except.ok () := by
  induction req with
  | nil => rfl
  | cons n rest ih =>
      simp only [validate_agg_loop]
      rw [if_pos (h n (List.mem_cons_self _ _))]
      exact ih (fun m hm => h m (List.mem_cons_of_mem _ hm))

/-- Any requested name outside the permitted list makes the validation
loop fail with a 415. -/
theorem validate_agg_loop_mem_err (allowed : List String) (detail : String → String)
    (req : List String) (n : String) (hn : n ∈ req) (hbad : n ∉ allowed) :
    ∃ d, validate_agg_loop allowed detail req = Except.error (PyError.http 415 d) := by
  induction req with
  | nil => cases hn
  | cons m rest ih =>
      simp only [validate_agg_loop]
      by_cases hm : m ∈ allowed
      · rw [if_pos hm]
        cases List.mem_cons.mp hn with
        | inl h => rw [h] at hbad; exact absurd hm hbad
        | inr h => exact ih h
      · rw [if_neg hm]
        exact ⟨detail m, rfl⟩

/-- Claim C1: each requested aggregation name is validated against the
scoped collection's declared aggregation list when that collection
declares one, and against the catalog-level allow-list otherwise
(including when no single collection is scoped); a request whose names
are all in the applicable list is accepted, and any name absent from it
makes the request fail with a distinguishable 415 error rather than
being silently dropped. -/
theorem C1_allowlist_enforcement (collection_id : Option String)
    (collection : Option CollectionD) (requested : List String) :
    ((∀ n ∈ requested, n ∈ permitted_aggregation_names collection) →
      validate_aggregations collection_id collection requested = Except.ok ()) ∧
    (∀ n ∈ requested, n ∉ permitted_aggregation_names collection →
      ∃ d, validate_aggregations collection_id collection requested =
        Except.error (PyError.http 415 d)) := by
  constructor
  · intro h
    cases collection with
    | none => exact validate_agg_loop_all_ok _ _ _ h
    | some col =>
        by_cases hagg : col.aggregations.isEmpty
        · simp only [validate_aggregations, permitted_aggregation_names, hagg] at h ⊢
          exact validate_agg_loop_all_ok _ _ _ h
        · simp only [validate_aggregations, permitted_aggregation_names, hagg] at h ⊢
          exact validate_agg_loop_all_ok _ _ _ h
  · intro n hn hbad
    cases collection with
    | none => exact validate_agg_loop_mem_err _ _ _ n hn hbad
    | some col =>
        by_cases hagg : col.aggregations.isEmpty
        · simp only [validate_aggregations, permitted_aggregation_names, hagg] at hbad ⊢
          exact validate_agg_loop_mem_err _ _ _ n hn hbad
        · simp only [validate_aggregations, permitted_aggregation_names, hagg] at hbad ⊢
          exact validate_agg_loop_mem_err _ _ _ n hn hbad

theorem C1_allowlist_enforcement_witness :
    validate_aggregations (some "c1") (some colC) ["total_count"] = Except.ok () ∧
    (∃ d, validate_aggregations (some "c1") (some colC) ["grid_geohash_frequency"] =
      Except.error (PyError.http 415 d)) ∧
    validate_aggregations none none ["grid_geohash_frequency"] = Except.ok () :=
  ⟨(C1_allowlist_enforcement (some "c1") (some colC) ["total_count"]).1 (by decide),
   (C1_allowlist_enforcement (some "c1") (some colC) ["grid_geohash_frequency"]).2
     "grid_geohash_frequency" (by decide) (by decide),
   (C1_allowlist_enforcement none none ["grid_geohash_frequency"]).1 (by decide)⟩

/-- Folding Python-dict insertion over specs with pairwise-distinct
fields, all fresh for the accumulator, appends them in input order. -/
theorem foldl_pyDictInsert_nodup (specs : List SortSpec) (d : List (String × SortDirection))
    (hd : ∀ s ∈ specs, s.field ∉ d.map Prod.fst)
    (hs : (specs.map SortSpec.field).Nodup) :
    specs.foldl (fun dict s => pyDictInsert dict s.field s.direction) d =
      d ++ specs.map (fun s => (s.field, s.direction)) := by
  induction specs generalizing d with
  | nil => simp
  | cons s rest ih =>
      have hnodup : (∀ x ∈ rest, ¬x.field = s.field) ∧
          (List.map SortSpec.field rest).Nodup := by simpa using hs
      simp only [List.foldl_cons]
      rw [pyDictInsert, if_neg (hd s (List.mem_cons_self _ _))]
      rw [ih (d ++ [(s.field, s.direction)]) ?_ hnodup.2]
      · simp
      · intro t ht
        simp only [List.map_append, List.mem_append, List.map_cons, List.map_nil,
          List.mem_singleton, not_or]
        exact ⟨hd t (List.mem_cons_of_mem _ ht), hnodup.1 t ht⟩

/-- Each nonempty sort key compiles to the sort entry with the first
character stripped from the field and the direction read from the first
character. -/
theorem get_search_sort_param_ok (keys : List String)
    (hne : ∀ s ∈ keys, s.isEmpty = false) :
    get_search_sort_param keys = Except.ok (keys.map (fun s =>
      { field := s.drop 1,
        direction := if s.front = '-' then SortDirection.desc
                     else SortDirection.asc })) := by
  induction keys with
  | nil => rfl
  | cons s rest ih =>
      simp only [get_search_sort_param, hne s (List.mem_cons_self _ _)]
      rw [ih (fun t ht => hne t (List.mem_cons_of_mem _ ht))]
      simp

/-- Claim C3 (amended): for every GET search sortby list of nonempty
keys whose compiled field names are pairwise distinct, each key
compiles to the key with its first character removed as the field name
- so a `-`-prefixed or `+`-prefixed key maps to the name without the
prefix, while a bare key loses its first character - with direction
descending exactly for `-`-prefixed keys, and the compiled sort
configuration preserves the input order with the first key as the
primary sort. -/
theorem C3_sort_compile_strips_first_char (keys : List String)
    (hne : ∀ s ∈ keys, s.isEmpty = false)
    (hnd : (keys.map (fun s => s.drop 1)).Nodup) :
    get_search_sort_param keys = Except.ok (keys.map (fun s =>
      { field := s.drop 1,
        direction := if s.front = '-' then SortDirection.desc
                     else SortDirection.asc })) ∧
    populate_sort_shared (keys.map (fun s =>
      ({ field := s.drop 1,
         direction := if s.front = '-' then SortDirection.desc
                      else SortDirection.asc } : SortSpec))) =
      (if keys.isEmpty then none
       else some (keys.map (fun s =>
         (s.drop 1, if s.front = '-' then SortDirection.desc
                    else SortDirection.asc)))) := by
  refine ⟨get_search_sort_param_ok keys hne, ?_⟩
  have hnd2 : ((keys.map (fun s =>
      ({ field := s.drop 1,
         direction := if s.front = '-' then SortDirection.desc
                      else SortDirection.asc } : SortSpec))).map SortSpec.field).Nodup := by
    simpa [List.map_map, Function.comp] using hnd
  cases keys with
  | nil => rfl
  | cons k rest =>
      simp only [populate_sort_shared]
      rw [if_neg (by simp), if_neg (by simp)]
      rw [foldl_pyDictInsert_nodup _ [] (by simp) hnd2]
      simp [List.map_map, Function.comp]

theorem C3_sort_compile_witness :
    get_search_sort_param ["-datetime", "+id"] = Except.ok
      [{ field := "datetime", direction := SortDirection.desc },
       { field := "id", direction := SortDirection.asc }] ∧
    populate_sort_shared
      [{ field := "datetime", direction := SortDirection.desc },
       { field := "id", direction := SortDirection.asc }] =
      some [("datetime", SortDirection.desc), ("id", SortDirection.asc)] := by
  have h := C3_sort_compile_strips_first_char ["-datetime", "+id"] (by decide) (by decide)
  exact ⟨h.1, h.2⟩

/-- Claim C3 counterexample: the bare (unsigned) key `datetime` is
compiled to the field name `atetime`, not to the exact field name the
claim states. -/
theorem C3_counterexample_bare_key :
    get_search_sort_param ["datetime"] =
      Except.ok [{ field := "atetime", direction := SortDirection.asc }] ∧
    "atetime" ≠ "datetime" := by
  constructor
  · rfl
  · decide

/-- Claim C8: `update_item` is not atomic.  For every store containing
the target item in an existing collection, the execution in which the
create call fails after the delete succeeded ends in an error while the
final stored state contains no item with the target id in the target
collection - neither the old nor the new item - so the state is not
left unchanged on error. -/
theorem C8_update_item_not_atomic (st : Store) (collection_id item_id old_body new_body : String)
    (hc : collection_id ∈ st.collections)
    (hi : ({ collection := collection_id, item_id := item_id, body := old_body } :
      ItemRecord) ∈ st.items) :
    (∃ e, (update_item_run st collection_id item_id new_body true).2 = Except.error e) ∧
    (∀ r ∈ (update_item_run st collection_id item_id new_body true).1.items,
      ¬(r.collection = collection_id ∧ r.item_id = item_id)) ∧
    (update_item_run st collection_id item_id new_body true).1 ≠ st := by
  have hdel : st.items.any
      (fun r => decide (r.collection = collection_id ∧ r.item_id = item_id)) = true := by
    rw [List.any_eq_true]
    exact ⟨_, hi, by simp⟩
  have hrun : update_item_run st collection_id item_id new_body true =
      (({ st with
            items := st.items.filter
              (fun r => !decide (r.collection = collection_id ∧ r.item_id = item_id)) } : Store),
       Except.error (PyError.http 500 "backend create failure")) := by
    simp only [update_item_run, check_collection_exists, db_delete_item, db_create_item]
    rw [if_pos hc, if_pos hdel]
    rfl
  refine ⟨⟨_, by rw [hrun]⟩, ?_, ?_⟩
  · intro r hr
    rw [hrun] at hr
    have h2 := (List.mem_filter.mp hr).2
    simp only [Bool.not_eq_true', decide_eq_false_iff_not] at h2
    exact h2
  · rw [hrun]
    intro heq
    have hitems : st.items.filter
        (fun r => !decide (r.collection = collection_id ∧ r.item_id = item_id)) = st.items :=
      congrArg Store.items heq
    have hmem : ({ collection := collection_id, item_id := item_id, body := old_body } :
        ItemRecord) ∈ st.items.filter
          (fun r => !decide (r.collection = collection_id ∧ r.item_id = item_id)) :=
      hitems.symm ▸ hi
    have := (List.mem_filter.mp hmem).2
    simp at this

theorem C8_update_item_not_atomic_witness :
    (∃ e, (update_item_run st0 "c1" "i1" "new" true).2 = Except.error e) ∧
    (∀ r ∈ (update_item_run st0 "c1" "i1" "new" true).1.items,
      ¬(r.collection = "c1" ∧ r.item_id = "i1")) ∧
    (update_item_run st0 "c1" "i1" "new" true).1 ≠ st0 :=
  C8_update_item_not_atomic st0 "c1" "i1" "old" "new" (by decide) (by decide)

/-- Claim C5: for every search or aggregation request supplying a
6-value bbox, the compiled query is exactly the one obtained from the
derived 4-value 2D bbox taken from indices 0, 1, 3 and 4, so filtering
with the 6-value box is equivalent to filtering with that 4-value box;
the bbox filter applied is `apply_bbox_filter` at the derived box. -/
theorem C5_bbox_six_value_equiv (r : SearchRequestD) (env : AggEnv) (a : AggArgs)
    (x0 x1 x2 x3 x4 x5 : Rat) :
    post_search_filters { r with bbox := some [x0, x1, x2, x3, x4, x5] } =
      post_search_filters { r with bbox := some [x0, x1, x3, x4] } ∧
    aggregatePrepare env { a with bbox := some [x0, x1, x2, x3, x4, x5] } =
      aggregatePrepare env { a with bbox := some [x0, x1, x3, x4] } ∧
    (∀ search, apply_bbox_step search [x0, x1, x2, x3, x4, x5] =
      apply_bbox_filter search [x0, x1, x3, x4]) := by
  refine ⟨rfl, rfl, fun search => rfl⟩

/-- Claim C7 (amended): every aggregation call supplying both bbox and
intersects is rejected before any backend execution with the
human-readable message `Expected bbox OR intersects, not both`, but the
rejection is raised as a plain `ValueError` rather than as an
`HTTPException` with a 4xx status, so it does not surface as a
4xx-equivalent client error under the default exception mapping. -/
theorem C7_bbox_intersects_conflict (env : AggEnv) (a : AggArgs)
    (backend : Prepared → Except PyError DbResponse)
    (hb : bboxTruthy a.bbox = true) (hi : intersectsTruthy a.intersects = true) :
    aggregatePrepare env a =
      Except.error (PyError.valueError "Expected bbox OR intersects, not both") ∧
    aggregate env a backend =
      Except.error (PyError.valueError "Expected bbox OR intersects, not both") ∧
    isClientHttpError (PyError.valueError "Expected bbox OR intersects, not both") = false := by
  have h1 : aggregatePrepare env a =
      Except.error (PyError.valueError "Expected bbox OR intersects, not both") := by
    simp only [aggregatePrepare, hb, hi]
    rfl
  refine ⟨h1, ?_, rfl⟩
  unfold aggregate
  rw [h1]

theorem C7_bbox_intersects_conflict_witness :
    aggregatePrepare envC argsBoth =
      Except.error (PyError.valueError "Expected bbox OR intersects, not both") ∧
    aggregate envC argsBoth backendC =
      Except.error (PyError.valueError "Expected bbox OR intersects, not both") ∧
    isClientHttpError (PyError.valueError "Expected bbox OR intersects, not both") = false :=
  C7_bbox_intersects_conflict envC argsBoth backendC rfl rfl

/-- Claim C7 counterexample: at a concrete request carrying both bbox
and intersects, the rejection is a `ValueError`, which is not an
`HTTPException` with a 4xx status, so it is not surfaced as a
4xx-equivalent client error. -/
theorem C7_counterexample_value_error :
    aggregate envC argsBoth backendC =
      Except.error (PyError.valueError "Expected bbox OR intersects, not both") ∧
    isClientHttpError (PyError.valueError "Expected bbox OR intersects, not both") = false :=
  ⟨rfl, rfl⟩

end StacFastApi
